import Mathlib

/-!
Shallow embedding of the post-processing core of `emotion_detector.py`
(class `EmotionDetector`): the score normalizer `_process_model_output`,
the cultural adjuster `_apply_cultural_context`, the intensity classifier
`_calculate_intensity`, and the trend analysis `get_emotion_trends` /
`_calculate_trend`, together with the static taxonomy configured in
`EmotionDetector.__init__` and the cultural profiles returned by
`data_preprocessing.load_cultural_context`.

Python dictionaries whose key set is the fixed 28-label taxonomy are
modelled as functions `String → ℚ` read at the taxonomy labels; raw model
outputs (lists of `{label, score}` items) are `List (String × ℚ)`;
floats are modelled as exact rationals.
-/

namespace EmpathyBot

/-- The 28 keys of `self.emotion_scores` as initialized in
`EmotionDetector.__init__` (the fixed taxonomy). -/
def emotionLabels : List String :=
  ["admiration", "amusement", "anger", "annoyance", "approval", "caring",
   "confusion", "curiosity", "desire", "disappointment", "disapproval",
   "disgust", "embarrassment", "excitement", "fear", "gratitude", "grief",
   "joy", "love", "nervousness", "optimism", "pride", "realization",
   "relief", "remorse", "sadness", "surprise", "neutral"]

/-- List `self.positive_emotions` from `EmotionDetector.__init__`. -/
def positive_emotions : List String :=
  ["admiration", "amusement", "approval", "caring", "curiosity", "desire",
   "excitement", "gratitude", "joy", "love", "optimism", "pride",
   "realization", "relief"]

/-- List `self.negative_emotions` from `EmotionDetector.__init__`. -/
def negative_emotions : List String :=
  ["anger", "annoyance", "disappointment", "disapproval", "disgust",
   "embarrassment", "fear", "grief", "nervousness", "remorse", "sadness"]

/-- List `self.neutral_emotions` from `EmotionDetector.__init__`. -/
def neutral_emotions : List String :=
  ["surprise", "neutral", "confusion"]

/-- The initial all-zero `self.emotion_scores` state. -/
def initialScores : String → ℚ := fun _ => 0

/-- The loop of `_process_model_output`: each item with a recognized label
(a key of `self.emotion_scores`, i.e. a taxonomy label) overwrites that
label's stored score; any other item writes `0.5` to `neutral`. -/
def updateScores : (String → ℚ) → List (String × ℚ) → (String → ℚ)
  | st, [] => st
  | st, item :: rest =>
      updateScores
        (if item.1 ∈ emotionLabels then
          fun k => if k = item.1 then item.2 else st k
        else
          fun k => if k = "neutral" then 1/2 else st k)
        rest

/-- Computes `sum(d.values())` for a taxonomy-keyed dictionary. -/
def sumScores (d : String → ℚ) : ℚ := (emotionLabels.map d).sum

/-- Embeds `EmotionDetector._process_model_output`, as a function of the current
`self.emotion_scores` state and the raw model output.  The returned
dictionary is also the new `self.emotion_scores` state.  (The guard
`isinstance(results, list) and results` only skips the loop, which on an
empty list is a no-op anyway; the non-list case cannot arise here.) -/
def processModelOutput (st : String → ℚ) (results : List (String × ℚ)) :
    String → ℚ :=
  let st1 := updateScores st results
  let total := sumScores st1
  if 0 < total then fun k => st1 k / total
  else fun k => if k = "neutral" then 1 else st1 k

/-- The `emotional_expression` style reached by
`self.cultural_context.get(context, self.cultural_context.get('default', {}))
.get('emotional_expression', 'adaptive')`, with `self.cultural_context`
the dictionary returned by `data_preprocessing.load_cultural_context`
(`western ↦ expressive`, `eastern ↦ reserved`, `default ↦ adaptive`;
unregistered names fall back to the `default` profile). -/
def culturalStyle (context : String) : String :=
  if context = "western" then "expressive"
  else if context = "eastern" then "reserved"
  else "adaptive"

/-- The adjustment loop of `_apply_cultural_context` (before
re-normalization): `reserved` multiplies every non-neutral-class score by
0.8 (its `else` arm computes `adjusted_scores[emotion] + 0.2 * sum(...)`
but discards the value, so neutral-class labels are unchanged);
`expressive` multiplies every non-neutral-class score by 1.2; any other
style leaves all scores unchanged. -/
def adjustScores (style : String) (d : String → ℚ) : String → ℚ := fun e =>
  if style = "reserved" then
    if e ∉ neutral_emotions then d e * 0.8 else d e
  else if style = "expressive" then
    if e ∉ neutral_emotions then d e * 1.2 else d e
  else d e

/-- Embeds `EmotionDetector._apply_cultural_context`: adjust by the context's
style, then divide by the new total if it is positive; otherwise the
unnormalized adjusted dictionary is returned as is.  (The `except` branch,
returning the input, is unreachable in this embedding: every operation is
total.) -/
def applyCulturalContext (d : String → ℚ) (context : String) : String → ℚ :=
  let adjusted := adjustScores (culturalStyle context) d
  let total := sumScores adjusted
  if 0 < total then fun k => adjusted k / total else adjusted

/-- Lexicon `self.intensity_modifiers['high']` from `EmotionDetector.__init__`. -/
def intensityHigh : List String :=
  ["very", "extremely", "incredibly", "absolutely", "totally",
   "completely", "utterly", "really really", "so", "!!!",
   "tremendously", "immensely", "super", "insanely",
   "ridiculously", "hugely", "wildly", "overwhelmingly",
   "soooo", "nooo way", "yesss", "omg", "oh my god", "wow",
   "ugh", "argh", "not at all", "never", "no way"]

/-- Lexicon `self.intensity_modifiers['medium']` from `EmotionDetector.__init__`. -/
def intensityMedium : List String :=
  ["quite", "pretty", "rather", "fairly", "somewhat", "really",
   "relatively", "kind of", "sort of", "more or less", "moderately",
   "reasonably", "kinda", "pretty much"]

/-- Lexicon `self.intensity_modifiers['low']` from `EmotionDetector.__init__`. -/
def intensityLow : List String :=
  ["a bit", "slightly", "little", "maybe", "perhaps", "not really",
   "not sure", "sorta", "I guess", "possibly", "kinda small",
   "barely", "hardly", "almost", "just a touch", "hardly ever", "scarcely"]

/-- Whether `n` is an initial segment of `h` (character lists). -/
def strLeads : List Char → List Char → Bool
  | [], _ => true
  | _ :: _, [] => false
  | a :: as, b :: bs => a = b && strLeads as bs

/-- Whether `n` occurs as a contiguous substring of `h` (Python `n in h`). -/
def strHasSub (n : List Char) : List Char → Bool
  | [] => strLeads n []
  | b :: bs => strLeads n (b :: bs) || strHasSub n bs

/-- Computes `text.count('!')`. -/
def exclamCount (text : String) : ℕ := text.data.countP (fun c => c = '!')

/-- Computes `sum(1 for c in text if c.isupper())`. -/
def upperCount (text : String) : ℕ := text.data.countP (fun c => c.isUpper)

/-- Variable `caps` in `_calculate_intensity`: uppercase characters over
`max(1, len(text))` (so 0 for empty text, as in the Python guard). -/
def capsFraction (text : String) : ℚ :=
  (upperCount text : ℚ) / ((max 1 text.length : ℕ) : ℚ)

/-- Python `str.lower()` (per-character lowercasing). -/
def strToLower (s : String) : String := ⟨s.data.map Char.toLower⟩

/-- Computes `any(mod in text_lower for mod in mods)`. -/
def anyModMatch (mods : List String) (textLower : String) : Bool :=
  mods.any (fun m => strHasSub m.data textLower.data)

/-- Computes `max(emotion_scores.values()) if emotion_scores else 0`. -/
def peakScore (scores : List (String × ℚ)) : ℚ :=
  match (scores.map Prod.snd).maximum with
  | some m => m
  | none => 0

/-- Embeds `EmotionDetector._calculate_intensity` on a well-typed distribution
and text (the `try` body; the `except` branch, returning `'low'`, is
unreachable in this embedding since every operation here is total). -/
def calculateIntensity (scores : List (String × ℚ)) (text : String) : String :=
  let max_score := peakScore scores
  let text_lower := strToLower text
  let exclam := exclamCount text
  let caps := capsFraction text
  let high_match := anyModMatch intensityHigh text_lower
  let med_match := anyModMatch intensityMedium text_lower
  let low_match := anyModMatch intensityLow text_lower
  if max_score ≥ 3/4 then
    if exclam > 2 ∨ caps > 3/10 ∨ high_match = true then "high"
    else if exclam ≥ 1 ∨ caps ≥ 1/10 ∨ med_match = true then "medium"
    else if low_match = true then "low"
    else "high"
  else if max_score ≥ 45/100 then
    if exclam ≥ 3 ∨ caps ≥ 3/10 ∨ high_match = true then "high"
    else if exclam ≥ 1 ∨ caps ≥ 1/10 ∨ med_match = true then "medium"
    else if low_match = true then "low"
    else "medium"
  else
    if exclam ≥ 3 ∨ caps ≥ 3/10 ∨ high_match = true then "high"
    else if exclam ≥ 1 ∨ caps ≥ 1/10 ∨ med_match = true then "medium"
    else if low_match = true then "low"
    else "low"

/-- The layered threshold table of spec §4.3, written as a flat list of
rows checked top to bottom with first match winning, as a function of the
five pieces of evidence. -/
def intensitySpecTable (peak : ℚ) (exclam : ℕ) (caps : ℚ)
    (hm mm lm : Bool) : String :=
  if peak ≥ 3/4 ∧ (exclam > 2 ∨ caps > 3/10 ∨ hm = true) then "high"
  else if peak ≥ 3/4 ∧ (exclam ≥ 1 ∨ caps ≥ 1/10 ∨ mm = true) then "medium"
  else if peak ≥ 3/4 ∧ lm = true then "low"
  else if peak ≥ 3/4 then "high"
  else if peak ≥ 45/100 ∧ (exclam ≥ 3 ∨ caps ≥ 3/10 ∨ hm = true) then "high"
  else if peak ≥ 45/100 ∧ (exclam ≥ 1 ∨ caps ≥ 1/10 ∨ mm = true) then "medium"
  else if peak ≥ 45/100 ∧ lm = true then "low"
  else if peak ≥ 45/100 then "medium"
  else if exclam ≥ 3 ∨ caps ≥ 3/10 ∨ hm = true then "high"
  else if exclam ≥ 1 ∨ caps ≥ 1/10 ∨ mm = true then "medium"
  else if lm = true then "low"
  else "low"

/-- Embeds `EmotionDetector._calculate_trend` (the `try` body; inputs here are
always honest string lists, so the non-sequence guard reduces to the
emptiness check and the inner `except` arms are unreachable).  Positive
and negative counts use valence-class membership; `len(set(emotions)) == 1`
is the deduplicated length. -/
def calculateTrend (emotions : List String) : String :=
  if emotions.isEmpty then "insufficient_data"
  else
    let pos_count := emotions.countP (fun e => e ∈ positive_emotions)
    let neg_count := emotions.countP (fun e => e ∈ negative_emotions)
    if emotions.dedup.length = 1 then "stable"
    else if pos_count > neg_count then "improving"
    else if neg_count > pos_count then "declining"
    else "mixed"

/-- The trend rule as worded in spec §4.4, step 3: all-identical entries
give `stable`, then the positive/negative count comparison. -/
def calculateTrendSpec (emotions : List String) : String :=
  if emotions.isEmpty then "insufficient_data"
  else
    let pos_count := emotions.countP (fun e => e ∈ positive_emotions)
    let neg_count := emotions.countP (fun e => e ∈ negative_emotions)
    if emotions.all (fun e => e = emotions.headI) then "stable"
    else if pos_count > neg_count then "improving"
    else if neg_count > pos_count then "declining"
    else "mixed"

/-- Python `l[-n:]`: the trailing `n` elements (all of them when the list
is shorter).  Also models the content of a bounded deque of capacity `n` after all
elements were appended in order (FIFO eviction keeps the last `n`). -/
def lastN (n : ℕ) (l : List String) : List String := l.drop (l.length - n)

/-- One entry of the `emotion_results` list consumed by
`get_emotion_trends`: only the keys the function reads are modelled, each
optional because the code reads them with `dict.get` defaults. -/
structure EmotionResult where
  primary_emotion : Option String
  intensity : Option String

/-- One step of building `emotion_counts`:
`emotion_counts[emotion] = emotion_counts.get(emotion, 0) + 1`, keeping
dictionary insertion order. -/
def bumpCount : List (String × ℕ) → String → List (String × ℕ)
  | [], e => [(e, 1)]
  | (k, c) :: rest, e =>
      if k = e then (k, c + 1) :: rest else (k, c) :: bumpCount rest e

/-- The `emotion_counts` dictionary, as an insertion-ordered list. -/
def emotionCounts (primaries : List String) : List (String × ℕ) :=
  primaries.foldl bumpCount []

/-- Computes `max(emotion_counts.keys(), key = lambda k: emotion_counts[k])`:
the first key attaining the maximal count, in insertion order (Python
`max` keeps the earlier item on ties).  Empty input cannot reach this in
`get_emotion_trends`. -/
def dominantEmotion : List (String × ℕ) → String
  | [] => "neutral"
  | p :: rest => (rest.foldl (fun best q => if q.2 > best.2 then q else best) p).1

/-- Computes `intensity_values.get(i, 1)` with
`intensity_values = {low: 1, medium: 2, high: 3}`. -/
def intensityValue (i : String) : ℕ :=
  if i = "low" then 1 else if i = "medium" then 2
  else if i = "high" then 3 else 1

/-- The dictionary returned by `get_emotion_trends`.  The empty-input
early return carries only three keys; the missing ones are `none`. -/
structure TrendReport where
  dominant_emotion : String
  emotion_distribution : Option (List (String × ℕ))
  average_intensity : Option ℚ
  trend : String
  total_messages : Option ℕ
  analysis : String

/-- Embeds `EmotionDetector.get_emotion_trends`.  `recent_emotions` is a
bounded deque of capacity 10 receiving every primary emotion in order, hence the
last 10; the `len(recent_emotions) < 3` assignment in the source is dead
(its value is unconditionally overwritten) and is omitted. -/
def getEmotionTrends (emotion_results : List EmotionResult) : TrendReport :=
  if emotion_results.isEmpty then
    { dominant_emotion := "neutral"
      emotion_distribution := none
      average_intensity := none
      trend := "stable"
      total_messages := none
      analysis := "No data available" }
  else
    let primaries := emotion_results.map (fun r => r.primary_emotion.getD "neutral")
    let emotion_counts := emotionCounts primaries
    let intensities := emotion_results.map (fun r => r.intensity.getD "low")
    let dominant_emotion := dominantEmotion emotion_counts
    let avg_intensity : ℚ :=
      ((intensities.map (fun i => (intensityValue i : ℚ))).sum) / (intensities.length : ℚ)
    let recent_emotions := lastN 10 primaries
    let short_term_trend := calculateTrend (lastN 3 recent_emotions)
    let medium_term_trend := calculateTrend (lastN 7 recent_emotions)
    let overall :=
      if short_term_trend = medium_term_trend then short_term_trend else "mixed"
    let trend :=
      "short-term: " ++ short_term_trend ++ ", mid-term: " ++ medium_term_trend
        ++ " and overall: " ++ overall
    { dominant_emotion := dominant_emotion
      emotion_distribution := some emotion_counts
      average_intensity := some avg_intensity
      trend := trend
      total_messages := some emotion_results.length
      analysis := "Primary emotion: " ++ dominant_emotion.toUpper ++ " with "
        ++ trend ++ " trend" }

/-! ## Helper lemmas -/

lemma updateScores_zero (results : List (String × ℚ)) :
    ∀ st : String → ℚ, (∀ k, st k = 0) →
    (∀ p ∈ results, p.1 ∈ emotionLabels ∧ p.2 = 0) →
    ∀ k, updateScores st results k = 0 := by
  induction results with
  | nil => intro st hst _ k; exact hst k
  | cons p rest ih =>
      intro st hst hp k
      have hp1 := hp p (List.mem_cons_self p rest)
      simp only [updateScores]
      rw [if_pos hp1.1]
      refine ih _ (fun k' => ?_) (fun q hq => hp q (List.mem_cons_of_mem p hq)) k
      by_cases hk' : k' = p.1 <;> simp [hk', hp1.2, hst k']

lemma updateScores_unrecognized_as_neutral (results : List (String × ℚ)) :
    ∀ st : String → ℚ,
      updateScores st results =
        updateScores st
          (results.map (fun p => if p.1 ∈ emotionLabels then p else ("neutral", 1/2))) := by
  induction results with
  | nil => intro st; rfl
  | cons p rest ih =>
      intro st
      simp only [List.map_cons, updateScores]
      by_cases hp : p.1 ∈ emotionLabels
      · rw [if_pos hp, if_pos hp, if_pos hp]
        exact ih _
      · rw [if_neg hp, if_neg hp,
            if_pos (show ("neutral", (1/2 : ℚ)).1 ∈ emotionLabels by decide)]
        exact ih _

/-! ## Claims -/

/-- Claim C1: for raw input that is empty or maps every recognized label
to zero (pre-normalization sum zero), `_process_model_output` started
from the initial all-zero score state returns the degenerate distribution
mapping `neutral` to 1 and every other taxonomy label to 0; the zero sum
takes the guarded `else` branch, so no division occurs. -/
theorem score_normalizer_zero_input (results : List (String × ℚ))
    (h : results = [] ∨ ∀ p ∈ results, p.1 ∈ emotionLabels ∧ p.2 = 0) :
    ∀ k ∈ emotionLabels,
      processModelOutput initialScores results k =
        if k = "neutral" then 1 else 0 := by
  intro k _
  have hz : ∀ k', updateScores initialScores results k' = 0 := by
    rcases h with h | h
    · subst h; intro k'; rfl
    · exact updateScores_zero results initialScores (fun _ => rfl) h
  have htot : sumScores (updateScores initialScores results) = 0 := by
    apply List.sum_eq_zero
    intro x hx
    simp only [List.mem_map] at hx
    obtain ⟨a, _, rfl⟩ := hx
    exact hz a
  simp only [processModelOutput]
  rw [if_neg (by rw [htot]; exact lt_irrefl 0)]
  by_cases hkn : k = "neutral" <;> simp [hkn, hz k]

/-- Witness for C1 at the concrete input `[(joy, 0)]`. -/
theorem score_normalizer_zero_input_witness :
    (([("joy", (0:ℚ))] : List (String × ℚ)) = [] ∨
      ∀ p ∈ ([("joy", (0:ℚ))] : List (String × ℚ)),
        p.1 ∈ emotionLabels ∧ p.2 = 0) ∧
    ∀ k ∈ emotionLabels,
      processModelOutput initialScores [("joy", (0:ℚ))] k =
        if k = "neutral" then 1 else 0 :=
  ⟨Or.inr (by decide),
   score_normalizer_zero_input [("joy", (0:ℚ))] (Or.inr (by decide))⟩

/-- Counterexample to claim C6: the input `[(joy, 0.9), (zzz, 0.7)]`
(with `zzz` unrecognized) does not produce the same output as its
restriction `[(joy, 0.9)]` to recognized labels, because the `else`
branch of the loop writes `neutral = 0.5` for the unrecognized entry:
`joy` normalizes to `9/14` instead of `1`. -/
theorem unrecognized_label_not_ignored :
    processModelOutput initialScores [("joy", 9/10), ("zzz", 7/10)] "joy" ≠
      processModelOutput initialScores [("joy", 9/10)] "joy" := by
  simp +decide [processModelOutput, updateScores, sumScores, emotionLabels,
    initialScores]
  norm_num
  simp +decide
  norm_num

/-- Amended claim C6: unrecognized labels are not ignored — each
unrecognized entry behaves exactly like a recognized entry
`(neutral, 0.5)` (so the `neutral = 0.5` sentinel fires whenever at least
one unrecognized entry is present, not only when no recognized label is
present, and the output generally differs from the output on the input
restricted to recognized labels). -/
theorem unrecognized_entries_act_as_neutral_writes
    (st : String → ℚ) (results : List (String × ℚ)) :
    processModelOutput st results =
      processModelOutput st
        (results.map (fun p => if p.1 ∈ emotionLabels then p
                               else ("neutral", 1/2))) := by
  simp only [processModelOutput]
  rw [← updateScores_unrecognized_as_neutral]

/-- Counterexample to claim C7: `_process_model_output` is not observably
pure.  A first call with `[(joy, 0.9)]` leaves `joy = 1` in the shared
score state, so a later call with `[(anger, 0.5)]` returns `anger = 1/3`,
while the same call from the initial state returns `anger = 1`. -/
theorem normalizer_state_leaks_across_calls :
    processModelOutput (processModelOutput initialScores [("joy", 9/10)])
        [("anger", 1/2)] "anger" ≠
      processModelOutput initialScores [("anger", 1/2)] "anger" := by
  simp +decide [processModelOutput, updateScores, sumScores, emotionLabels,
    initialScores]
  norm_num

/-- Amended claim C7: the Score Normalizer is stateful, pure only over
the pair (stored score state, input): any taxonomy label other than
`neutral` that the current input does not mention keeps, in the
pre-normalization state, exactly the value left behind by earlier calls,
so the output of a call depends on prior calls. -/
theorem stale_scores_persist (st : String → ℚ) (results : List (String × ℚ))
    (k : String) (h1 : ∀ p ∈ results, p.1 ≠ k) (h2 : k ≠ "neutral") :
    updateScores st results k = st k := by
  induction results generalizing st with
  | nil => rfl
  | cons p rest ih =>
      simp only [updateScores]
      split_ifs with hp
      · rw [ih _ (fun q hq => h1 q (List.mem_cons_of_mem p hq))]
        exact if_neg (fun h => h1 p (List.mem_cons_self p rest) h.symm)
      · rw [ih _ (fun q hq => h1 q (List.mem_cons_of_mem p hq))]
        exact if_neg h2

/-- Witness for the amended C7 at the state left by a `joy` call and the
input `[(anger, 0.5)]`: the stale `joy` score survives untouched. -/
theorem stale_scores_persist_witness :
    (∀ p ∈ ([("anger", (1/2:ℚ))] : List (String × ℚ)), p.1 ≠ "joy") ∧
    "joy" ≠ "neutral" ∧
    updateScores (fun s => if s = "joy" then 1 else 0)
      [("anger", (1/2:ℚ))] "joy" = 1 :=
  ⟨by decide, by decide,
   (stale_scores_persist (fun s => if s = "joy" then 1 else 0)
      [("anger", (1/2:ℚ))] "joy" (by decide) (by decide)).trans (by norm_num)⟩

lemma adjustScores_lower (style : String) (d : String → ℚ) (e : String)
    (h : 0 ≤ d e) : d e * (4/5) ≤ adjustScores style d e := by
  unfold adjustScores
  split_ifs <;> nlinarith [h]

lemma adjustScores_upper (style : String) (d : String → ℚ) (e : String)
    (h : 0 ≤ d e) : adjustScores style d e ≤ d e * (6/5) := by
  unfold adjustScores
  split_ifs <;> nlinarith [h]

lemma sumScores_adjust_lower (style : String) (d : String → ℚ)
    (hnn : ∀ k ∈ emotionLabels, 0 ≤ d k) :
    sumScores d * (4/5) ≤ sumScores (adjustScores style d) := by
  unfold sumScores
  rw [← List.sum_map_mul_right]
  exact List.sum_le_sum fun k hk => adjustScores_lower style d k (hnn k hk)

lemma sumScores_adjust_upper (style : String) (d : String → ℚ)
    (hnn : ∀ k ∈ emotionLabels, 0 ≤ d k) :
    sumScores (adjustScores style d) ≤ sumScores d * (6/5) := by
  unfold sumScores
  rw [← List.sum_map_mul_right]
  exact List.sum_le_sum fun k hk => adjustScores_upper style d k (hnn k hk)

lemma sumScores_div (d : String → ℚ) (c : ℚ) :
    sumScores (fun k => d k / c) = sumScores d / c := by
  unfold sumScores
  simp only [div_eq_mul_inv]
  exact List.sum_map_mul_right _ _ _

/-- Claim C2: on a complete input distribution (non-negative over the
taxonomy, summing to 1) and any cultural context name,
`_apply_cultural_context` returns a distribution summing exactly to 1;
the zero-post-adjustment-sum branch is unreachable (the adjusted total is
at least 4/5) and in the embedding every operation is total, so nothing
is raised to the caller.  This establishes the first disjunct of the
claim outright. -/
theorem cultural_adjuster_preserves_distribution (d : String → ℚ)
    (context : String) (hnn : ∀ k ∈ emotionLabels, 0 ≤ d k)
    (hsum : sumScores d = 1) :
    sumScores (applyCulturalContext d context) = 1 := by
  have hlow := sumScores_adjust_lower (culturalStyle context) d hnn
  rw [hsum, one_mul] at hlow
  have hpos : 0 < sumScores (adjustScores (culturalStyle context) d) :=
    lt_of_lt_of_le (by norm_num) hlow
  simp only [applyCulturalContext]
  rw [if_pos hpos, sumScores_div, div_self (ne_of_gt hpos)]

/-- Witness for C2 at the point distribution on `joy` and context
`western`. -/
theorem cultural_adjuster_preserves_distribution_witness :
    (∀ k ∈ emotionLabels, 0 ≤ (fun s => if s = "joy" then (1:ℚ) else 0) k) ∧
    sumScores (fun s => if s = "joy" then (1:ℚ) else 0) = 1 ∧
    sumScores (applyCulturalContext
      (fun s => if s = "joy" then (1:ℚ) else 0) "western") = 1 :=
  ⟨by decide,
   by simp +decide [sumScores, emotionLabels],
   cultural_adjuster_preserves_distribution _ "western" (by decide)
     (by simp +decide [sumScores, emotionLabels])⟩

/-- Claim C8: on a complete input distribution, a context with the
`reserved` style never increases the final re-normalized score of a
label outside the neutral valence class, a context with the
`expressive` style never decreases one, and in both styles the
pre-normalization adjusted scores of neutral-class labels equal the
input scores. -/
theorem cultural_adjustment_monotone (d : String → ℚ) (context : String)
    (hnn : ∀ k ∈ emotionLabels, 0 ≤ d k) (hsum : sumScores d = 1) :
    (culturalStyle context = "reserved" →
      ∀ k ∈ emotionLabels, k ∉ neutral_emotions →
        applyCulturalContext d context k ≤ d k) ∧
    (culturalStyle context = "expressive" →
      ∀ k ∈ emotionLabels, k ∉ neutral_emotions →
        d k ≤ applyCulturalContext d context k) ∧
    (∀ k ∈ neutral_emotions, adjustScores (culturalStyle context) d k = d k) := by
  have hlow := sumScores_adjust_lower (culturalStyle context) d hnn
  rw [hsum, one_mul] at hlow
  have hup := sumScores_adjust_upper (culturalStyle context) d hnn
  rw [hsum, one_mul] at hup
  have hpos : 0 < sumScores (adjustScores (culturalStyle context) d) :=
    lt_of_lt_of_le (by norm_num) hlow
  refine ⟨?_, ?_, ?_⟩
  · intro hstyle k hk hkn
    simp only [applyCulturalContext]
    rw [if_pos hpos, div_le_iff₀ hpos]
    have hadj : adjustScores (culturalStyle context) d k = d k * 0.8 := by
      simp [adjustScores, hstyle, hkn]
    rw [hadj]
    have h1 : d k * (4/5) ≤ d k * sumScores (adjustScores (culturalStyle context) d) :=
      mul_le_mul_of_nonneg_left hlow (hnn k hk)
    nlinarith [h1]
  · intro hstyle k hk hkn
    simp only [applyCulturalContext]
    rw [if_pos hpos, le_div_iff₀ hpos]
    have hadj : adjustScores (culturalStyle context) d k = d k * 1.2 := by
      simp [adjustScores, hstyle, hkn]
    rw [hadj]
    have h1 : d k * sumScores (adjustScores (culturalStyle context) d) ≤ d k * (6/5) :=
      mul_le_mul_of_nonneg_left hup (hnn k hk)
    nlinarith [h1]
  · intro k hk
    simp [adjustScores, hk]

/-- Witness for C8 at the point distribution on `joy` and context
`eastern` (whose style is `reserved`). -/
theorem cultural_adjustment_monotone_witness :
    (∀ k ∈ emotionLabels, 0 ≤ (fun s => if s = "joy" then (1:ℚ) else 0) k) ∧
    sumScores (fun s => if s = "joy" then (1:ℚ) else 0) = 1 ∧
    ((culturalStyle "eastern" = "reserved" →
      ∀ k ∈ emotionLabels, k ∉ neutral_emotions →
        applyCulturalContext (fun s => if s = "joy" then (1:ℚ) else 0)
          "eastern" k ≤ (fun s => if s = "joy" then (1:ℚ) else 0) k) ∧
    (culturalStyle "eastern" = "expressive" →
      ∀ k ∈ emotionLabels, k ∉ neutral_emotions →
        (fun s => if s = "joy" then (1:ℚ) else 0) k ≤
          applyCulturalContext (fun s => if s = "joy" then (1:ℚ) else 0)
            "eastern" k) ∧
    (∀ k ∈ neutral_emotions,
      adjustScores (culturalStyle "eastern")
        (fun s => if s = "joy" then (1:ℚ) else 0) k =
        (fun s => if s = "joy" then (1:ℚ) else 0) k)) :=
  ⟨by decide,
   by simp +decide [sumScores, emotionLabels],
   cultural_adjustment_monotone _ "eastern" (by decide)
     (by simp +decide [sumScores, emotionLabels])⟩

/-- Claim C3: `_calculate_intensity` computes exactly the layered
threshold table of spec §4.3, rows checked top to bottom, first match
winning, over the five pieces of evidence extracted from the
distribution and the text. -/
theorem intensity_matches_spec_table (scores : List (String × ℚ))
    (text : String) :
    calculateIntensity scores text =
      intensitySpecTable (peakScore scores) (exclamCount text)
        (capsFraction text)
        (anyModMatch intensityHigh (strToLower text))
        (anyModMatch intensityMedium (strToLower text))
        (anyModMatch intensityLow (strToLower text)) := by
  simp only [calculateIntensity, intensitySpecTable]
  by_cases h75 : peakScore scores ≥ 3/4 <;>
    by_cases h45 : peakScore scores ≥ 45/100 <;>
      by_cases hA : exclamCount text > 2 ∨ capsFraction text > 3/10 ∨
        anyModMatch intensityHigh (strToLower text) = true <;>
        by_cases hB : exclamCount text ≥ 1 ∨ capsFraction text ≥ 1/10 ∨
          anyModMatch intensityMedium (strToLower text) = true <;>
          by_cases hC : anyModMatch intensityLow (strToLower text) = true <;>
            by_cases hD : exclamCount text ≥ 3 ∨ capsFraction text ≥ 3/10 ∨
              anyModMatch intensityHigh (strToLower text) = true <;>
              simp [h75, h45, hA, hB, hC, hD]

/-- Counterexample to claim C9: an empty distribution does not raise and
does not yield `low` — the guard `if emotion_scores else 0` makes the
peak 0 and the table still applies, so text with three `!` yields
`high`. -/
theorem empty_distribution_not_low :
    calculateIntensity [] "WOW!!!" = "high" := by
  have hp : peakScore ([] : List (String × ℚ)) = 0 := rfl
  have hex : exclamCount "WOW!!!" = 3 := by decide
  simp only [calculateIntensity, hp, hex]
  norm_num

/-- Amended claim C9: an exception during evaluation yields `low`, but an
empty distribution raises no exception: the peak is taken as 0 and the
normal layered table applies (so `low` results only when no surface
signal fires, and emphatic text still yields `medium` or `high`). -/
theorem empty_distribution_uses_peak_zero (text : String) :
    calculateIntensity [] text =
      intensitySpecTable 0 (exclamCount text) (capsFraction text)
        (anyModMatch intensityHigh (strToLower text))
        (anyModMatch intensityMedium (strToLower text))
        (anyModMatch intensityLow (strToLower text)) := by
  have hp : peakScore ([] : List (String × ℚ)) = 0 := rfl
  simp only [calculateIntensity, intensitySpecTable, hp]
  norm_num

lemma nodup_all_eq_length_one (a : String) (m : List String)
    (hnd : m.Nodup) (hne : m ≠ []) (hall : ∀ e ∈ m, e = a) :
    m.length = 1 := by
  cases m with
  | nil => exact absurd rfl hne
  | cons x xs =>
      cases xs with
      | nil => rfl
      | cons y ys =>
          exfalso
          have hx := hall x (List.mem_cons_self x (y :: ys))
          have hy := hall y (by simp)
          rw [hx, hy] at hnd
          simp at hnd

lemma dedup_length_one_iff (a : String) (l : List String) :
    (a :: l).dedup.length = 1 ↔ ∀ e ∈ a :: l, e = a := by
  constructor
  · intro h e he
    obtain ⟨b, hb⟩ := List.length_eq_one.mp h
    have hea : e ∈ (a :: l).dedup := List.mem_dedup.mpr he
    have haa : a ∈ (a :: l).dedup := List.mem_dedup.mpr (List.mem_cons_self a l)
    rw [hb] at hea haa
    simp at hea haa
    rw [hea, haa]
  · intro h
    exact nodup_all_eq_length_one a _ (List.nodup_dedup _)
      (by simp [Ne, List.dedup_eq_nil])
      (fun e he => h e (List.mem_dedup.mp he))

/-- Claim C5: `_calculate_trend` returns `insufficient_data` on an empty
window, `stable` when all entries are identical, `improving` when
positive-valence entries outnumber negative-valence ones, `declining` in
the opposite case, and `mixed` otherwise — i.e. it equals the case list
of spec §4.4 step 3.  (The non-sequence guard and the inner exception
arms cannot fire on honest string lists.) -/
theorem trend_label_cases (emotions : List String) :
    calculateTrend emotions = calculateTrendSpec emotions := by
  cases emotions with
  | nil => rfl
  | cons a rest =>
      simp only [calculateTrend, calculateTrendSpec, List.isEmpty_cons,
        Bool.false_eq_true, if_false]
      have hiff : ((a :: rest).dedup.length = 1) ↔
          ((a :: rest).all fun e => decide (e = (a :: rest).headI)) = true := by
        simp only [List.all_eq_true, decide_eq_true_eq, List.headI_cons]
        exact dedup_length_one_iff a rest
      simp only [hiff]

/-- Claim C4: for a non-empty input, `get_emotion_trends` buffers the
last 10 primary emotions (FIFO), computes the short trend over the last
3 and the medium trend over the last 7 of that buffer (fewer when the
history is shorter), and composes the reported trend with the overall
trend equal to the short trend if the two agree and `mixed` otherwise. -/
theorem trend_report_windows (emotion_results : List EmotionResult)
    (h : emotion_results ≠ []) :
    (getEmotionTrends emotion_results).trend =
      "short-term: " ++
        calculateTrend (lastN 3 (lastN 10 (emotion_results.map
          (fun r => r.primary_emotion.getD "neutral")))) ++
      ", mid-term: " ++
        calculateTrend (lastN 7 (lastN 10 (emotion_results.map
          (fun r => r.primary_emotion.getD "neutral")))) ++
      " and overall: " ++
        (if calculateTrend (lastN 3 (lastN 10 (emotion_results.map
              (fun r => r.primary_emotion.getD "neutral")))) =
            calculateTrend (lastN 7 (lastN 10 (emotion_results.map
              (fun r => r.primary_emotion.getD "neutral"))))
          then calculateTrend (lastN 3 (lastN 10 (emotion_results.map
              (fun r => r.primary_emotion.getD "neutral"))))
          else "mixed") := by
  simp only [getEmotionTrends]
  rw [if_neg (by simp [h])]

/-- Witness for C4 at the spec's end-to-end example history
`[joy, joy, anger, joy, joy, joy, joy]`: short window stable, medium
window improving, overall mixed. -/
theorem trend_report_windows_witness :
    ([⟨some "joy", none⟩, ⟨some "joy", none⟩, ⟨some "anger", none⟩,
      ⟨some "joy", none⟩, ⟨some "joy", none⟩, ⟨some "joy", none⟩,
      ⟨some "joy", none⟩] : List EmotionResult) ≠ [] ∧
    (getEmotionTrends
      [⟨some "joy", none⟩, ⟨some "joy", none⟩, ⟨some "anger", none⟩,
       ⟨some "joy", none⟩, ⟨some "joy", none⟩, ⟨some "joy", none⟩,
       ⟨some "joy", none⟩]).trend =
      "short-term: stable, mid-term: improving and overall: mixed" :=
  ⟨List.cons_ne_nil _ _,
   (trend_report_windows _ (List.cons_ne_nil _ _)).trans (by decide)⟩

/-- Claim C10: on an empty result list `get_emotion_trends` returns the
fixed report with dominant emotion `neutral`, trend `stable` (not
`insufficient_data`), analysis `No data available`, and no distribution,
average-intensity or message-count entries. -/
theorem empty_history_report :
    (getEmotionTrends []).dominant_emotion = "neutral" ∧
    (getEmotionTrends []).trend = "stable" ∧
    (getEmotionTrends []).analysis = "No data available" ∧
    (getEmotionTrends []).emotion_distribution = none ∧
    (getEmotionTrends []).average_intensity = none ∧
    (getEmotionTrends []).total_messages = none :=
  ⟨rfl, rfl, rfl, rfl, rfl, rfl⟩

end EmpathyBot
